import Mathlib

/-
Verification development for the socialbio-payments repository.

The embedding models the four provided TypeScript sources:
  src/services/webhooks/payment-intent.service.ts  (handlePaymentIntent)
  src/services/stripe.service.ts                   (hookEventsFromStripe, cancelSubscriptionOnStripe,
                                                    saveSubscriptionResult, updateSubscriptionResult)
  src/models/subscription.models.ts                (ISubscriptionCreationResult, subscriptionSchema)
  src/models/email.models.ts                       (IEmailRecipient; the same source bundle also carries
                                                    the subscriptions-results service with
                                                    updateSubscriptionResultFromPaymentIntent,
                                                    cancelSubscriptionResult, saveSubscriptionResult,
                                                    updateSubscriptionResult)

The document store is modelled with MongoDB document semantics: a collection is a
list of documents, findOne returns the first document matching the filter, and a
filter that compares an embedded document (such as
latestInvoice: \x7b payment_intent: \x7b id \x7d \x7d) matches by exact equality of the whole
embedded document.  findOneAndUpdate with the option new true returns the updated
document.  Updates issued through the Mongoose model are cast against
subscriptionSchema: under the default strict mode, update paths the schema does
not declare are stripped, so the update document \x7b subscriptionScheduleId \x7d,
whose only path is absent from the schema, writes nothing.  External collaborators (user collection, provider schedule creation,
signature verification, email transport) are inputs or recorded effects: emails
and schedule requests are collected as effect lists in the order the code emits
them.  Rendered HTML and plain-text message bodies, plan-name and amount helpers
feed only those bodies and are out of scope per the spec, so recipients are
modelled by name, address and subject.
-/

namespace SocialbioPayments

/-- A provider customer reference as it appears on a payment intent: either a plain
string id or an expanded customer object carrying an id field. -/
inductive Customer where
  | ref (s : String)
  | obj (id : String)
deriving DecidableEq

/-- The fields of a stored payment-intent document besides its id.  A stored
payment_intent subdocument that is exactly of the shape id-only has none of
these. -/
structure PIRest where
  amount_received : Nat
  currency : String
  receipt_email : String
  customer : Customer
  status : String
deriving DecidableEq

/-- A payment-intent document as stored inside latestInvoice: its id plus,
optionally, the remaining payment-intent fields.  rest none means the document
is exactly of the one-field shape with only the id. -/
structure PIDoc where
  id : String
  rest : Option PIRest
deriving DecidableEq

/-- The latestInvoice subdocument of a stored Subscription Record: a nested
payment-intent document, plus a flag recording whether the invoice document
carries any further fields besides payment_intent (a real provider invoice
does). -/
structure LatestInvoice where
  payment_intent : PIDoc
  hasExtraFields : Bool
deriving DecidableEq

/-- The incoming payment intent carried by a webhook event (event.data.object),
typed IPaymentIntent in the source. -/
structure PaymentIntent where
  id : String
  amount_received : Nat
  currency : String
  receipt_email : String
  customer : Customer
  status : String
deriving DecidableEq

/-- The document written for a payment intent when it is embedded under
latestInvoice.payment_intent: the full intent. -/
def PaymentIntent.toDoc (pi : PaymentIntent) : PIDoc :=
  ⟨pi.id, some ⟨pi.amount_received, pi.currency, pi.receipt_email, pi.customer, pi.status⟩⟩

/-- A stored subscription document.  The first ten fields mirror
ISubscriptionCreationResult from subscription.models.ts.  paymentIntentId and
subscriptionScheduleId are two further fields a document in the collection may
carry: the handler queries the former, and addresses the latter in an update
whose only path the schema does not declare, so that update writes nothing. -/
structure SubscriptionRecord where
  subscriptionId : String
  subscriptionEnd : Int
  subscriptionStart : Int
  currency : String
  priceId : String
  recurrency : Option String
  customer : Customer
  latestInvoice : LatestInvoice
  userId : String
  status : String
  paymentIntentId : Option String
  subscriptionScheduleId : Option String
deriving DecidableEq

/-- The ISubscriptionCreationResult interface of subscription.models.ts: the
value passed to saveSubscriptionResult and updateSubscriptionResult. -/
structure ISubscriptionCreationResult where
  subscriptionId : String
  subscriptionEnd : Int
  subscriptionStart : Int
  currency : String
  priceId : String
  recurrency : Option String
  customer : Customer
  latestInvoice : LatestInvoice
  userId : String
  status : String
deriving DecidableEq

/-- The document created for an ISubscriptionCreationResult: exactly its fields,
with no paymentIntentId and no subscriptionScheduleId. -/
def ISubscriptionCreationResult.toRecord (sub : ISubscriptionCreationResult) : SubscriptionRecord :=
  ⟨sub.subscriptionId, sub.subscriptionEnd, sub.subscriptionStart, sub.currency, sub.priceId,
   sub.recurrency, sub.customer, sub.latestInvoice, sub.userId, sub.status, none, none⟩

/-- The Subscriptions collection. -/
abbrev Store := List SubscriptionRecord

/-- MongoDB update of the first document matching the filter, leaving the rest
unchanged (findOneAndUpdate touches at most one document). -/
def updateFirst (p : SubscriptionRecord → Bool) (f : SubscriptionRecord → SubscriptionRecord) :
    Store → Store
  | [] => []
  | r :: rs => if p r then f r :: rs else r :: updateFirst p f rs

/-- findOneAndUpdate with option new true: the updated document (or none) and the
resulting collection. -/
def findOneAndUpdateNew (p : SubscriptionRecord → Bool) (f : SubscriptionRecord → SubscriptionRecord)
    (s : Store) : Option SubscriptionRecord × Store :=
  match s.find? p with
  | none => (none, s)
  | some r => (some (f r), updateFirst p f s)

theorem findOneAndUpdateNew_of_find?_eq_none (p : SubscriptionRecord → Bool)
    (f : SubscriptionRecord → SubscriptionRecord) (s : Store) (h : s.find? p = none) :
    findOneAndUpdateNew p f s = (none, s) := by
  simp [findOneAndUpdateNew, h]

theorem findOneAndUpdateNew_of_find?_eq_some (p : SubscriptionRecord → Bool)
    (f : SubscriptionRecord → SubscriptionRecord) (s : Store) (r : SubscriptionRecord)
    (h : s.find? p = some r) :
    findOneAndUpdateNew p f s = (some (f r), updateFirst p f s) := by
  simp [findOneAndUpdateNew, h]

theorem mem_updateFirst_of_find?_eq_some (p : SubscriptionRecord → Bool)
    (f : SubscriptionRecord → SubscriptionRecord) (s : Store) (r : SubscriptionRecord)
    (h : s.find? p = some r) : f r ∈ updateFirst p f s := by
  induction s with
  | nil => simp at h
  | cons a t ih =>
    by_cases ha : p a
    · rw [List.find?_cons_of_pos t ha] at h
      cases h
      simp [updateFirst, ha]
    · rw [List.find?_cons_of_neg t ha] at h
      simp only [updateFirst, if_neg ha]
      exact List.mem_cons_of_mem a (ih h)

theorem map_updateFirst_eq_of_preserved {β : Type} (p : SubscriptionRecord → Bool)
    (f : SubscriptionRecord → SubscriptionRecord) (g : SubscriptionRecord → β)
    (hf : ∀ x, g (f x) = g x) (s : Store) :
    (updateFirst p f s).map g = s.map g := by
  induction s with
  | nil => rfl
  | cons a t ih =>
    by_cases ha : p a
    · simp [updateFirst, ha, hf]
    · simp [updateFirst, ha, ih]

theorem find?_map_updateFirst_eq {β : Type} (p : SubscriptionRecord → Bool)
    (f : SubscriptionRecord → SubscriptionRecord) (q : SubscriptionRecord → Bool)
    (g : SubscriptionRecord → β)
    (hq : ∀ x, q (f x) = q x) (hg : ∀ x, g (f x) = g x) (s : Store) :
    ((updateFirst p f s).find? q).map g = (s.find? q).map g := by
  induction s with
  | nil => rfl
  | cons a t ih =>
    by_cases ha : p a
    · by_cases hqa : q a
      · have hqfa : q (f a) := by rw [hq]; exact hqa
        simp only [updateFirst, if_pos ha, List.find?_cons_of_pos t hqfa,
          List.find?_cons_of_pos t hqa, Option.map_some', hg]
      · have hqfa : ¬ q (f a) := by rw [hq]; exact hqa
        simp only [updateFirst, if_pos ha, List.find?_cons_of_neg t hqfa,
          List.find?_cons_of_neg t hqa]
    · by_cases hqa : q a
      · simp only [updateFirst, if_neg ha, List.find?_cons_of_pos _ hqa]
      · simp only [updateFirst, if_neg ha, List.find?_cons_of_neg _ hqa, ih]

theorem find?_updateFirst_self (p : SubscriptionRecord → Bool)
    (f : SubscriptionRecord → SubscriptionRecord) (hp : ∀ x, p (f x) = p x)
    (s : Store) (r : SubscriptionRecord) (h : s.find? p = some r) :
    (updateFirst p f s).find? p = some (f r) := by
  induction s with
  | nil => simp at h
  | cons a t ih =>
    by_cases ha : p a
    · rw [List.find?_cons_of_pos t ha] at h
      injection h with h
      subst h
      have hfr : p (f a) := by rw [hp]; exact ha
      simp [updateFirst, ha, List.find?_cons_of_pos t hfr]
    · rw [List.find?_cons_of_neg t ha] at h
      simp [updateFirst, ha, List.find?_cons_of_neg _ ha, ih h]

theorem updateFirst_idem (p : SubscriptionRecord → Bool)
    (f : SubscriptionRecord → SubscriptionRecord)
    (hp : ∀ x, p (f x) = p x) (hf : ∀ x, f (f x) = f x) (s : Store) :
    updateFirst p f (updateFirst p f s) = updateFirst p f s := by
  induction s with
  | nil => rfl
  | cons a t ih =>
    by_cases ha : p a
    · have : p (f a) := by rw [hp]; exact ha
      simp [updateFirst, ha, this, hf]
    · simp [updateFirst, ha, ih]

/-- A user document, with the two fields the handler reads. -/
structure User where
  firstName : String
  email : String
deriving DecidableEq

/-- An outbound notification, modelled by its recipient name, address and
subject; the rendered HTML and plain-text bodies are out of scope per the spec. -/
structure EmailRecipient where
  name : String
  email : String
  subject : String
deriving DecidableEq

/-- A provider subscription schedule, by its id. -/
structure SubscriptionSchedule where
  id : String
deriving DecidableEq

/-- Modelled from the spec: the localized message dictionary returned by
getDictionayByLanguage in utils/localization.ts, which is not among the provided
sources; only the two subject keys the handler reads are modelled. -/
structure Dictionary where
  payment : String
  paymentSucceed : String
deriving DecidableEq

/-- Modelled from the spec: getLanguageFromCurrency in utils/stripe.ts is not among
the provided sources; the spec fixes a currency-to-language mapping in which
currency brl resolves to pt and the scenario default is en. -/
def getLanguageFromCurrency (currency : String) : String :=
  if currency = "brl" then "pt" else "en"

/-- Modelled from the spec: getDictionayByLanguage in utils/localization.ts is not
among the provided sources; it loads a localized message dictionary for the
language. -/
def getDictionayByLanguage (language : String) : Dictionary :=
  if language = "pt" then ⟨"Pagamento", "Pagamento finalizado"⟩
  else ⟨"Payment", "Payment succeed"⟩

/-- Modelled from the spec: the SYSTEM_EMAIL_CREDENTIALS constant is declared in
constants.ts, which is not among the provided sources; per the spec it carries the
fixed operational mailbox.  The empty string models absent credentials, matching
the truthiness test the handler performs on the user field. -/
structure SystemEmailCredentials where
  user : String
deriving DecidableEq

/-- Modelled from the spec: the SubscriptionStatus enumeration is imported from
subscription.models.ts but its declaration is not among the provided sources; the
spec fixes canceled as one of its values, and the sibling cancelSubscriptionResult
writes the literal string value for the same transition. -/
def SubscriptionStatus.canceled : String := "canceled"

namespace SubscriptionsResults

/-- The filter document of updateSubscriptionResultFromPaymentIntent:
latestInvoice must equal, as a whole embedded document, the one-field document
whose payment_intent is exactly the one-field document with the given id. -/
def bareInvoiceDoc (paymentIntentId : String) : LatestInvoice :=
  ⟨⟨paymentIntentId, none⟩, false⟩

/-- The update document of updateSubscriptionResultFromPaymentIntent: latestInvoice
is replaced by a document holding exactly the incoming payment intent, and status
by the status of the intent. -/
def reconcilePatch (pi : PaymentIntent) (r : SubscriptionRecord) : SubscriptionRecord :=
  { r with latestInvoice := ⟨pi.toDoc, false⟩, status := pi.status }

/-- updateSubscriptionResultFromPaymentIntent from the subscriptions-results
service: findOneAndUpdate with the exact-document filter on latestInvoice, the
reconciling update document, and option new true. -/
def updateSubscriptionResultFromPaymentIntent (pi : PaymentIntent) (s : Store) :
    Option SubscriptionRecord × Store :=
  findOneAndUpdateNew (fun r => decide (r.latestInvoice = bareInvoiceDoc pi.id))
    (reconcilePatch pi) s

/-- The update document of the two cancel operations: status becomes canceled. -/
def cancelPatch (r : SubscriptionRecord) : SubscriptionRecord :=
  { r with status := SubscriptionStatus.canceled }

/-- cancelSubscriptionResult from the subscriptions-results service:
findOneAndUpdate on subscriptionId setting status to the canceled value, with
option new true. -/
def cancelSubscriptionResult (subscriptionId : String) (s : Store) :
    Option SubscriptionRecord × Store :=
  findOneAndUpdateNew (fun r => decide (r.subscriptionId = subscriptionId)) cancelPatch s

/-- saveSubscriptionResult from the subscriptions-results service: create the
document and return it. -/
def saveSubscriptionResult (sub : ISubscriptionCreationResult) (s : Store) :
    SubscriptionRecord × Store :=
  (sub.toRecord, s ++ [sub.toRecord])

/-- The update document of updateSubscriptionResult: the spread of the
ISubscriptionCreationResult value sets each of its fields; document fields
outside the interface are untouched. -/
def spreadPatch (sub : ISubscriptionCreationResult) (r : SubscriptionRecord) : SubscriptionRecord :=
  { r with
    subscriptionId := sub.subscriptionId
    subscriptionEnd := sub.subscriptionEnd
    subscriptionStart := sub.subscriptionStart
    currency := sub.currency
    priceId := sub.priceId
    recurrency := sub.recurrency
    customer := sub.customer
    latestInvoice := sub.latestInvoice
    userId := sub.userId
    status := sub.status }

/-- updateSubscriptionResult from the subscriptions-results service:
findOneAndUpdate on subscriptionId with the spread update document and option
new true. -/
def updateSubscriptionResult (sub : ISubscriptionCreationResult) (s : Store) :
    Option SubscriptionRecord × Store :=
  findOneAndUpdateNew (fun r => decide (r.subscriptionId = sub.subscriptionId))
    (spreadPatch sub) s

end SubscriptionsResults

namespace StripeSvc

/-- The output of cancelSubscriptionOnStripe: the returned value, the resulting
collection, and the remote provider cancel calls that were issued. -/
structure CancelOutput where
  result : Option SubscriptionRecord
  store : Store
  remoteCancels : List String
deriving DecidableEq

/-- cancelSubscriptionOnStripe from stripe.service.ts.  stripeReady models
whether the provider client singleton could be initialized.  The local record is
updated to canceled first; when no local record matches, the function returns
null before any remote call.  The remote delete call is issued without awaiting
its promise, so the following falsy test on it can never fire and the updated
local record is returned. -/
def cancelSubscriptionOnStripe (stripeReady : Bool) (subscriptionId : String) (s : Store) :
    CancelOutput :=
  if stripeReady = false then ⟨none, s, []⟩
  else
    match findOneAndUpdateNew (fun r => decide (r.subscriptionId = subscriptionId))
        SubscriptionsResults.cancelPatch s with
    | (none, _) => ⟨none, s, []⟩
    | (some subscriptionUpdated, s1) => ⟨some subscriptionUpdated, s1, [subscriptionId]⟩

/-- saveSubscriptionResult as declared in stripe.service.ts: create the document
and return it. -/
def saveSubscriptionResult (sub : ISubscriptionCreationResult) (s : Store) :
    SubscriptionRecord × Store :=
  (sub.toRecord, s ++ [sub.toRecord])

/-- updateSubscriptionResult as declared in stripe.service.ts: findOneAndUpdate
on subscriptionId with the spread update document and option new true. -/
def updateSubscriptionResult (sub : ISubscriptionCreationResult) (s : Store) :
    Option SubscriptionRecord × Store :=
  findOneAndUpdateNew (fun r => decide (r.subscriptionId = sub.subscriptionId))
    (SubscriptionsResults.spreadPatch sub) s

end StripeSvc

/-- The customerId computation of the succeeded branch: the id field of the
customer when that field is truthy, otherwise the customer value itself.  A
plain empty string is falsy and yields no usable id; an expanded object with a
falsy id falls back to the object itself, which is truthy and coerces to its
object string. -/
def customerTruthyId : Customer → Option String
  | Customer.obj id => if id = "" then some "[object Object]" else some id
  | Customer.ref s => if s = "" then none else some s

/-- The findOne on the Subscriptions collection by the paymentIntentId field,
projected to the subscriptionId of the found document. -/
def lookupSubscriptionIdByPaymentIntent (paymentIntentId : String) (s : Store) : Option String :=
  (s.find? (fun r => decide (r.paymentIntentId = some paymentIntentId))).map
    (fun r => r.subscriptionId)

/-- The effect on a matched document of the update document whose single path is
subscriptionScheduleId: subscriptionSchema declares no such path, and the model
is built with the default strict mode, which strips paths outside the schema
from updates, so the issued findOneAndUpdate writes nothing and the document is
unchanged. -/
def schedulePatch (_scheduleId : String) (r : SubscriptionRecord) : SubscriptionRecord :=
  r

/-- The schedule phase of the succeeded branch: resolve customerId and
subscriptionId; when both are truthy, request a subscription schedule from the
provider (recorded as an issued request) and, when one comes back, issue the
findOneAndUpdate keyed by the subscriptionId of the reconciled record whose
update document holds only the schedule id — an update the schema strip makes a
no-op on the matched document.  Returns the resulting collection and the issued
schedule requests. -/
def scheduleStep (sched : String → String → Option SubscriptionSchedule)
    (pi : PaymentIntent) (targetSubscriptionId : String) (s : Store) :
    Store × List (String × String) :=
  match customerTruthyId pi.customer, lookupSubscriptionIdByPaymentIntent pi.id s with
  | some customerId, some subscriptionId =>
    if subscriptionId = "" then (s, [])
    else
      match sched customerId subscriptionId with
      | some schedule =>
        (updateFirst (fun r => decide (r.subscriptionId = targetSubscriptionId))
          (schedulePatch schedule.id) s, [(customerId, subscriptionId)])
      | none => (s, [(customerId, subscriptionId)])
  | _, _ => (s, [])

/-- The observable outcome of one handlePaymentIntent invocation: the resulting
Subscriptions collection, the notifications handed to the Notification Sender in
send order, whether the reconciliation-miss error was logged, and the schedule
requests issued to the Provider Adapter. -/
structure HandlerOutput where
  store : Store
  emails : List EmailRecipient
  errorLogged : Bool
  scheduleRequests : List (String × String)
deriving DecidableEq

/-- handlePaymentIntent from payment-intent.service.ts.  The user collection and
the provider schedule operation are external collaborators passed as inputs.
When no user matches the receipt email, nothing happens.  Otherwise the
subscriptions-results reconciliation runs; on a miss an error is logged and
nothing else happens.  On a hit the event subtype is dispatched: payment_failed
composes the localized failure notification; succeeded runs the schedule phase,
composes the localized success notification and, when the operational mailbox is
configured, sends the operational notification first; any other subtype only
logs.  The rendered message bodies, and the amount and plan values that feed
only those bodies, are out of scope per the spec. -/
def handlePaymentIntent (sysCreds : SystemEmailCredentials) (users : List User)
    (sched : String → String → Option SubscriptionSchedule)
    (eventType : String) (pi : PaymentIntent) (s : Store) : HandlerOutput :=
  match users.find? (fun u => decide (u.email = pi.receipt_email)) with
  | none => ⟨s, [], false, []⟩
  | some userFound =>
    match SubscriptionsResults.updateSubscriptionResultFromPaymentIntent pi s with
    | (none, s1) => ⟨s1, [], true, []⟩
    | (some updatedSubscription, s1) =>
      if eventType = "payment_intent.payment_failed" then
        ⟨s1,
         [⟨userFound.firstName, userFound.email,
           "[Socialbio] " ++ (getDictionayByLanguage (getLanguageFromCurrency pi.currency)).payment⟩],
         false, []⟩
      else if eventType = "payment_intent.succeeded" then
        ⟨(scheduleStep sched pi updatedSubscription.subscriptionId s1).1,
         (if sysCreds.user = "" then []
          else [⟨"System", sysCreds.user,
            "[Socialbio] " ++ (getDictionayByLanguage (getLanguageFromCurrency pi.currency)).payment⟩])
          ++ [⟨userFound.firstName, userFound.email,
            "[Socialbio] " ++ (getDictionayByLanguage (getLanguageFromCurrency pi.currency)).paymentSucceed⟩],
         false, (scheduleStep sched pi updatedSubscription.subscriptionId s1).2⟩
      else
        ⟨s1, [], false, []⟩

/-- The substring test used for event routing, with the semantics of the
includes method of JS strings on the type field. -/
def strIncludes (s pat : String) : Bool :=
  (List.range (s.data.length + 1)).any (fun i => pat.data.isPrefixOf (s.data.drop i))

/-- A verified webhook event: its type string and, for payment-intent events, the
payment intent carried as event.data.object. -/
structure Event where
  type : String
  intent : PaymentIntent
deriving DecidableEq

/-- The outcome of the signature verification performed by the provider client:
a parsed event, a falsy parsed value, or a verification error. -/
inductive SigOutcome where
  | valid (ev : Event)
  | nullEvent
  | invalid (message : String)

/-- The response produced by the webhook endpoint: the empty-body success send,
a JSON error body with a status, or an error thrown out of the request handler
without any response being written by it. -/
inductive HookResponse where
  | emptyOk
  | jsonError (status : Nat) (message : String)
  | thrown (message : String)
deriving DecidableEq

/-- Is the response a JSON error body. -/
def HookResponse.isJson : HookResponse → Bool
  | HookResponse.jsonError _ _ => true
  | _ => false

/-- Which handler the dispatcher invoked. -/
inductive RouteChoice where
  | paymentIntent
  | invoice
  | noHandler
deriving DecidableEq

/-- The request-time configuration of the endpoint: whether the provider client
singleton could be initialized, and the webhook signing secret from the
environment. -/
structure HookConfig where
  stripeReady : Bool
  webhookSecret : Option String
deriving DecidableEq

/-- Modelled from the spec: AppErrorsMessages.INTERNAL_ERROR lives in
constants.ts, which is not among the provided sources; it is the generic internal
error message of the spec. -/
def INTERNAL_ERROR : String := "Internal error"

/-- The observable outcome of one webhook delivery: response, invoked handler,
resulting collection, notifications, reconciliation-miss error flag and schedule
requests. -/
structure HookOutput where
  response : HookResponse
  route : RouteChoice
  store : Store
  emails : List EmailRecipient
  errorLogged : Bool
  scheduleRequests : List (String × String)
deriving DecidableEq

/-- hookEventsFromStripe from stripe.service.ts.  A missing provider client
yields the JSON 500 internal error.  A missing webhook secret throws.  A
signature verification error yields the JSON 500 webhook error; a falsy parsed
event yields the JSON 500 internal error.  A verified event whose type contains
payment_intent goes to the payment-intent handler, else one containing invoice
goes to the invoice handler, else no handler runs; in each of these three cases
the response is the empty-body success send.  The invoice handler lives in a
source that is not provided and the spec leaves it as an undetailed sibling, so
its own store and email effects are not modelled; only the routing to it is. -/
def hookEventsFromStripe (hc : HookConfig) (sysCreds : SystemEmailCredentials)
    (users : List User) (sched : String → String → Option SubscriptionSchedule)
    (sig : SigOutcome) (s : Store) : HookOutput :=
  if hc.stripeReady = false then
    ⟨HookResponse.jsonError 500 INTERNAL_ERROR, RouteChoice.noHandler, s, [], false, []⟩
  else
    match hc.webhookSecret with
    | none => ⟨HookResponse.thrown INTERNAL_ERROR, RouteChoice.noHandler, s, [], false, []⟩
    | some _ =>
      match sig with
      | SigOutcome.invalid _ =>
        ⟨HookResponse.jsonError 500 "Webhook Error", RouteChoice.noHandler, s, [], false, []⟩
      | SigOutcome.nullEvent =>
        ⟨HookResponse.jsonError 500 INTERNAL_ERROR, RouteChoice.noHandler, s, [], false, []⟩
      | SigOutcome.valid ev =>
        if strIncludes ev.type "payment_intent" then
          ⟨HookResponse.emptyOk, RouteChoice.paymentIntent,
           (handlePaymentIntent sysCreds users sched ev.type ev.intent s).store,
           (handlePaymentIntent sysCreds users sched ev.type ev.intent s).emails,
           (handlePaymentIntent sysCreds users sched ev.type ev.intent s).errorLogged,
           (handlePaymentIntent sysCreds users sched ev.type ev.intent s).scheduleRequests⟩
        else if strIncludes ev.type "invoice" then
          ⟨HookResponse.emptyOk, RouteChoice.invoice, s, [], false, []⟩
        else
          ⟨HookResponse.emptyOk, RouteChoice.noHandler, s, [], false, []⟩

/-- The status together with the latestInvoice of a record: the part of a record
the reconciliation update writes and the schedule phase leaves alone. -/
def statusInv (r : SubscriptionRecord) : String × LatestInvoice :=
  (r.status, r.latestInvoice)

theorem scheduleStep_map_statusInv (sched : String → String → Option SubscriptionSchedule)
    (pi : PaymentIntent) (t : String) (s : Store) :
    ((scheduleStep sched pi t s).1).map statusInv = s.map statusInv := by
  unfold scheduleStep
  cases customerTruthyId pi.customer with
  | none => rfl
  | some cid =>
    cases lookupSubscriptionIdByPaymentIntent pi.id s with
    | none => rfl
    | some sid =>
      by_cases hsid : sid = ""
      · simp only [if_pos hsid]
      · simp only [if_neg hsid]
        cases sched cid sid with
        | none => rfl
        | some sch =>
          exact map_updateFirst_eq_of_preserved (fun r => decide (r.subscriptionId = t))
            (schedulePatch sch.id) statusInv (fun x => rfl) s

theorem lookup_updateFirst_reconcile (piId : String) (pi : PaymentIntent)
    (p : SubscriptionRecord → Bool) (s : Store) :
    lookupSubscriptionIdByPaymentIntent piId
        (updateFirst p (SubscriptionsResults.reconcilePatch pi) s)
      = lookupSubscriptionIdByPaymentIntent piId s := by
  unfold lookupSubscriptionIdByPaymentIntent
  exact find?_map_updateFirst_eq p (SubscriptionsResults.reconcilePatch pi)
    (fun r => decide (r.paymentIntentId = some piId)) (fun r => r.subscriptionId)
    (fun x => rfl) (fun x => rfl) s

theorem handlePaymentIntent_no_user (sysCreds : SystemEmailCredentials) (users : List User)
    (sched : String → String → Option SubscriptionSchedule) (eventType : String)
    (pi : PaymentIntent) (s : Store)
    (h : users.find? (fun u => decide (u.email = pi.receipt_email)) = none) :
    handlePaymentIntent sysCreds users sched eventType pi s = ⟨s, [], false, []⟩ := by
  unfold handlePaymentIntent
  rw [h]

theorem handlePaymentIntent_reconcile_miss (sysCreds : SystemEmailCredentials)
    (users : List User) (sched : String → String → Option SubscriptionSchedule)
    (eventType : String) (pi : PaymentIntent) (s : Store) (u : User)
    (hu : users.find? (fun x => decide (x.email = pi.receipt_email)) = some u)
    (h : s.find? (fun x => decide (x.latestInvoice = SubscriptionsResults.bareInvoiceDoc pi.id))
        = none) :
    handlePaymentIntent sysCreds users sched eventType pi s = ⟨s, [], true, []⟩ := by
  unfold handlePaymentIntent
  rw [hu]
  rw [SubscriptionsResults.updateSubscriptionResultFromPaymentIntent,
    findOneAndUpdateNew_of_find?_eq_none _ _ _ h]

theorem handlePaymentIntent_succeeded_hit (sysCreds : SystemEmailCredentials)
    (users : List User) (sched : String → String → Option SubscriptionSchedule)
    (pi : PaymentIntent) (s : Store) (u : User) (r : SubscriptionRecord)
    (hu : users.find? (fun x => decide (x.email = pi.receipt_email)) = some u)
    (hr : s.find? (fun x => decide (x.latestInvoice = SubscriptionsResults.bareInvoiceDoc pi.id))
        = some r) :
    handlePaymentIntent sysCreds users sched "payment_intent.succeeded" pi s
      = ⟨(scheduleStep sched pi (SubscriptionsResults.reconcilePatch pi r).subscriptionId
            (updateFirst
              (fun x => decide (x.latestInvoice = SubscriptionsResults.bareInvoiceDoc pi.id))
              (SubscriptionsResults.reconcilePatch pi) s)).1,
         (if sysCreds.user = "" then []
          else [⟨"System", sysCreds.user,
            "[Socialbio] " ++ (getDictionayByLanguage (getLanguageFromCurrency pi.currency)).payment⟩])
          ++ [⟨u.firstName, u.email,
            "[Socialbio] " ++ (getDictionayByLanguage (getLanguageFromCurrency pi.currency)).paymentSucceed⟩],
         false,
         (scheduleStep sched pi (SubscriptionsResults.reconcilePatch pi r).subscriptionId
            (updateFirst
              (fun x => decide (x.latestInvoice = SubscriptionsResults.bareInvoiceDoc pi.id))
              (SubscriptionsResults.reconcilePatch pi) s)).2⟩ := by
  unfold handlePaymentIntent
  rw [hu]
  rw [SubscriptionsResults.updateSubscriptionResultFromPaymentIntent,
    findOneAndUpdateNew_of_find?_eq_some _ _ _ _ hr]
  rfl

/-- A concrete incoming payment intent for the C1 input. -/
def c1Intent : PaymentIntent :=
  ⟨"pi_1", 2000, "usd", "a@x.com", Customer.ref "cus_1", "succeeded"⟩

/-- A concrete user matching the C1 receipt email. -/
def c1User : User := ⟨"Alice", "a@x.com"⟩

/-- A stored record whose nested payment-intent id equals the C1 incoming id but
whose latestInvoice carries the other payment-intent fields, as any record
mirrored from a real provider invoice does. -/
def c1Record : SubscriptionRecord :=
  ⟨"sub_1", 1700000000, 1690000000, "usd", "price_pro_month", some "month", Customer.ref "cus_1",
   ⟨⟨"pi_1", some ⟨2000, "usd", "a@x.com", Customer.ref "cus_1", "requires_payment_method"⟩⟩, false⟩,
   "user_1", "incomplete", none, none⟩

/-- Claim C1: for a payment-intent event whose receipt email matches a user, the
reconciliation is claimed to find the record whose latestInvoice.payment_intent.id
equals the incoming intent id and update it.  The code instead filters by exact
equality of the whole latestInvoice document with the one-field id document, so a
record whose nested id matches but whose stored intent carries any further field
is not found: the update returns nothing, the collection is unchanged, and the
handler only logs the reconciliation error. -/
theorem c1_reconciliation_misses_nested_match :
    c1Record.latestInvoice.payment_intent.id = c1Intent.id
    ∧ List.find? (fun x => decide (x.email = c1Intent.receipt_email)) [c1User] = some c1User
    ∧ SubscriptionsResults.updateSubscriptionResultFromPaymentIntent c1Intent [c1Record]
        = (none, [c1Record])
    ∧ handlePaymentIntent ⟨"ops@socialbio.me"⟩ [c1User] (fun _ _ => none)
        "payment_intent.succeeded" c1Intent [c1Record]
        = ⟨[c1Record], [], true, []⟩ := by
  refine ⟨rfl, by decide, by decide, by decide⟩

/-- A concrete incoming payment intent for the C2 counterexample input. -/
def c2Intent : PaymentIntent :=
  ⟨"pi_2", 3000, "brl", "b@y.com", Customer.ref "cus_2", "succeeded"⟩

/-- A concrete user matching the C2 receipt email. -/
def c2User : User := ⟨"Bob", "b@y.com"⟩

/-- A stored record whose nested payment-intent id equals the C2 incoming id but
whose latestInvoice document is not the bare one-field document. -/
def c2Record : SubscriptionRecord :=
  ⟨"sub_2", 1710000000, 1680000000, "brl", "price_neon_year", some "year", Customer.ref "cus_2",
   ⟨⟨"pi_2", some ⟨3000, "brl", "b@y.com", Customer.ref "cus_2", "processing"⟩⟩, false⟩,
   "user_2", "incomplete", none, none⟩

/-- Claim C2, as stated, fails: a payment-intent-succeeded event whose intent id
equals the nested latestInvoice.payment_intent.id of a stored record and whose
receipt email matches a user yields no status update and no notification at all,
because the reconciliation filter demands exact whole-document equality of
latestInvoice. -/
theorem c2_counterexample :
    c2Record.latestInvoice.payment_intent.id = c2Intent.id
    ∧ List.find? (fun x => decide (x.email = c2Intent.receipt_email)) [c2User] = some c2User
    ∧ (handlePaymentIntent ⟨"ops@socialbio.me"⟩ [c2User] (fun _ _ => none)
        "payment_intent.succeeded" c2Intent [c2Record]).emails = []
    ∧ (handlePaymentIntent ⟨"ops@socialbio.me"⟩ [c2User] (fun _ _ => none)
        "payment_intent.succeeded" c2Intent [c2Record]).store = [c2Record] := by
  refine ⟨rfl, by decide, by decide, by decide⟩

/-- Claim C2, amended: for a payment-intent-succeeded event whose receipt email
matches a user and whose intent id is matched by the reconciliation filter of the
code — the stored latestInvoice is exactly the bare one-field id document — the
matched record ends up with the status of the intent and the full intent under
latestInvoice, and, the operational mailbox being configured, exactly one
operational notification and then exactly one user-facing notification are
attempted. -/
theorem c2_succeeded_updates_and_notifies (sysCreds : SystemEmailCredentials)
    (users : List User) (sched : String → String → Option SubscriptionSchedule)
    (pi : PaymentIntent) (s : Store) (u : User) (r : SubscriptionRecord)
    (hu : users.find? (fun x => decide (x.email = pi.receipt_email)) = some u)
    (hr : s.find? (fun x => decide (x.latestInvoice = SubscriptionsResults.bareInvoiceDoc pi.id))
        = some r)
    (hsys : ¬ sysCreds.user = "") :
    (handlePaymentIntent sysCreds users sched "payment_intent.succeeded" pi s).emails.map
        (fun e => e.email) = [sysCreds.user, u.email]
    ∧ (handlePaymentIntent sysCreds users sched "payment_intent.succeeded" pi s).errorLogged
        = false
    ∧ ∃ r2 ∈ (handlePaymentIntent sysCreds users sched "payment_intent.succeeded" pi s).store,
        r2.status = pi.status ∧ r2.latestInvoice = ⟨pi.toDoc, false⟩ := by
  rw [handlePaymentIntent_succeeded_hit sysCreds users sched pi s u r hu hr]
  refine ⟨by rw [if_neg hsys]; rfl, rfl, ?_⟩
  have hmem : SubscriptionsResults.reconcilePatch pi r
      ∈ updateFirst
          (fun x => decide (x.latestInvoice = SubscriptionsResults.bareInvoiceDoc pi.id))
          (SubscriptionsResults.reconcilePatch pi) s :=
    mem_updateFirst_of_find?_eq_some _ _ s r hr
  have hin := List.mem_map_of_mem statusInv hmem
  rw [← scheduleStep_map_statusInv sched pi
    (SubscriptionsResults.reconcilePatch pi r).subscriptionId] at hin
  obtain ⟨r2, hr2, hstat⟩ := List.mem_map.mp hin
  refine ⟨r2, hr2, ?_, ?_⟩
  · exact congrArg Prod.fst hstat
  · exact congrArg Prod.snd hstat

/-- A concrete incoming payment intent for the C2 witness input, with a stored
record whose latestInvoice is exactly the bare one-field id document. -/
def c2wIntent : PaymentIntent :=
  ⟨"pi_2w", 2000, "usd", "w@y.com", Customer.ref "cus_2w", "succeeded"⟩

/-- The user of the C2 witness input. -/
def c2wUser : User := ⟨"Wanda", "w@y.com"⟩

/-- The stored record of the C2 witness input. -/
def c2wRecord : SubscriptionRecord :=
  ⟨"sub_2w", 1710000000, 1680000000, "usd", "price_pro_month", some "month", Customer.ref "cus_2w",
   ⟨⟨"pi_2w", none⟩, false⟩, "user_2w", "incomplete", none, none⟩

/-- Concrete instance of the amended C2 theorem. -/
theorem c2_succeeded_updates_and_notifies_witness :
    (handlePaymentIntent ⟨"ops@socialbio.me"⟩ [c2wUser] (fun _ _ => none)
        "payment_intent.succeeded" c2wIntent [c2wRecord]).emails.map (fun e => e.email)
      = ["ops@socialbio.me", c2wUser.email]
    ∧ (handlePaymentIntent ⟨"ops@socialbio.me"⟩ [c2wUser] (fun _ _ => none)
        "payment_intent.succeeded" c2wIntent [c2wRecord]).errorLogged = false
    ∧ ∃ r2 ∈ (handlePaymentIntent ⟨"ops@socialbio.me"⟩ [c2wUser] (fun _ _ => none)
        "payment_intent.succeeded" c2wIntent [c2wRecord]).store,
        r2.status = c2wIntent.status ∧ r2.latestInvoice = ⟨c2wIntent.toDoc, false⟩ :=
  c2_succeeded_updates_and_notifies ⟨"ops@socialbio.me"⟩ [c2wUser] (fun _ _ => none)
    c2wIntent [c2wRecord] c2wUser c2wRecord (by decide) (by decide) (by decide)

/-- Claim C3: a verified event is routed on its type string: a type containing
payment_intent goes to the payment-intent handler; otherwise a type containing
invoice goes to the invoice handler; otherwise no handler is invoked and the
event is answered with the empty-body success response. -/
theorem c3_event_dispatch (hc : HookConfig) (sysCreds : SystemEmailCredentials)
    (users : List User) (sched : String → String → Option SubscriptionSchedule)
    (ev : Event) (s : Store) (sec : String)
    (hready : hc.stripeReady = true) (hsec : hc.webhookSecret = some sec) :
    (strIncludes ev.type "payment_intent" = true →
      (hookEventsFromStripe hc sysCreds users sched (SigOutcome.valid ev) s).route
          = RouteChoice.paymentIntent
      ∧ (hookEventsFromStripe hc sysCreds users sched (SigOutcome.valid ev) s).response
          = HookResponse.emptyOk)
    ∧ (strIncludes ev.type "payment_intent" = false → strIncludes ev.type "invoice" = true →
      hookEventsFromStripe hc sysCreds users sched (SigOutcome.valid ev) s
        = ⟨HookResponse.emptyOk, RouteChoice.invoice, s, [], false, []⟩)
    ∧ (strIncludes ev.type "payment_intent" = false → strIncludes ev.type "invoice" = false →
      hookEventsFromStripe hc sysCreds users sched (SigOutcome.valid ev) s
        = ⟨HookResponse.emptyOk, RouteChoice.noHandler, s, [], false, []⟩) := by
  refine ⟨fun h1 => ?_, fun h1 h2 => ?_, fun h1 h2 => ?_⟩
  · simp [hookEventsFromStripe, hready, hsec, h1]
  · simp [hookEventsFromStripe, hready, hsec, h1, h2]
  · simp [hookEventsFromStripe, hready, hsec, h1, h2]

/-- The payment intent carried by the C3 witness event; its content is never
read on the taken branch. -/
def c3wIntent : PaymentIntent :=
  ⟨"pi_3", 1000, "usd", "c@z.com", Customer.ref "cus_3", "succeeded"⟩

/-- A verified event of the C3 witness whose type mentions neither handler
substring. -/
def c3wEvent : Event := ⟨"charge.refunded", c3wIntent⟩

/-- Concrete instance of the C3 routing theorem on an event of an unrelated
type: no handler, empty-body success. -/
theorem c3_event_dispatch_witness :
    strIncludes c3wEvent.type "payment_intent" = false
    ∧ strIncludes c3wEvent.type "invoice" = false
    ∧ hookEventsFromStripe ⟨true, some "whsec_3"⟩ ⟨"ops@socialbio.me"⟩ [] (fun _ _ => none)
        (SigOutcome.valid c3wEvent) []
      = ⟨HookResponse.emptyOk, RouteChoice.noHandler, [], [], false, []⟩ :=
  ⟨by decide, by decide,
   (c3_event_dispatch ⟨true, some "whsec_3"⟩ ⟨"ops@socialbio.me"⟩ [] (fun _ _ => none)
      c3wEvent [] "whsec_3" rfl rfl).2.2 (by decide) (by decide)⟩

/-- Claim C5: a payment-intent event whose receipt email matches no user leaves
the collection untouched, attempts no notification, logs no reconciliation error
and issues no schedule request. -/
theorem c5_unknown_email_silently_ignored (sysCreds : SystemEmailCredentials)
    (users : List User) (sched : String → String → Option SubscriptionSchedule)
    (eventType : String) (pi : PaymentIntent) (s : Store)
    (h : users.find? (fun u => decide (u.email = pi.receipt_email)) = none) :
    handlePaymentIntent sysCreds users sched eventType pi s = ⟨s, [], false, []⟩ :=
  handlePaymentIntent_no_user sysCreds users sched eventType pi s h

/-- A concrete incoming payment intent for the C5 witness whose receipt email
matches no user. -/
def c5Intent : PaymentIntent :=
  ⟨"pi_5", 2000, "usd", "nobody@x.com", Customer.ref "cus_5", "succeeded"⟩

/-- A stored record present while the C5 event is ignored. -/
def c5Record : SubscriptionRecord :=
  ⟨"sub_5", 1700000000, 1690000000, "usd", "price_pro_month", some "month", Customer.ref "cus_5",
   ⟨⟨"pi_5", none⟩, false⟩, "user_5", "incomplete", none, none⟩

/-- Concrete instance of the C5 theorem: the user collection knows a different
address, so the event changes nothing. -/
theorem c5_unknown_email_silently_ignored_witness :
    handlePaymentIntent ⟨"ops@socialbio.me"⟩ [⟨"Uma", "u@x.com"⟩] (fun _ _ => none)
        "payment_intent.succeeded" c5Intent [c5Record]
      = ⟨[c5Record], [], false, []⟩ :=
  c5_unknown_email_silently_ignored ⟨"ops@socialbio.me"⟩ [⟨"Uma", "u@x.com"⟩] (fun _ _ => none)
    "payment_intent.succeeded" c5Intent [c5Record] (by decide)

/-- The incoming payment intent of the C4 failing input. -/
def c4Intent : PaymentIntent :=
  ⟨"pi_4", 5000, "usd", "c@w.com", Customer.ref "cus_4", "succeeded"⟩

/-- The user of the C4 failing input. -/
def c4User : User := ⟨"Carol", "c@w.com"⟩

/-- The stored record of the C4 failing input: its latestInvoice is the bare
one-field id document, so reconciliation matches it, and it carries the
paymentIntentId field the schedule phase queries. -/
def c4Record : SubscriptionRecord :=
  ⟨"sub_4", 1720000000, 1690000000, "usd", "price_pro_month", some "month", Customer.ref "cus_4",
   ⟨⟨"pi_4", none⟩, false⟩, "user_4", "incomplete", some "pi_4", none⟩

/-- The provider adapter of the C4 failing input, returning one schedule to
every request. -/
def c4Sched : String → String → Option SubscriptionSchedule :=
  fun _ _ => some ⟨"sub_sched_4"⟩

/-- Claim C4: on a payment-intent-succeeded event whose reconciliation found a
matching record, with customer reference and subscription id both resolvable, a
subscription schedule is claimed to be requested and its id persisted onto the
record as subscriptionScheduleId.  The request half holds: exactly one schedule
request is issued.  The persist half fails on the code: subscriptionSchema
declares no subscriptionScheduleId path, so the default strict mode strips the
whole update document and no record ever receives the returned schedule id.  At
the failing input the provider returns a schedule, yet every record in the
resulting collection still has no subscriptionScheduleId. -/
theorem c4_schedule_persist_is_noop :
    (handlePaymentIntent ⟨"ops@socialbio.me"⟩ [c4User] c4Sched
        "payment_intent.succeeded" c4Intent [c4Record]).scheduleRequests
      = [("cus_4", "sub_4")]
    ∧ c4Sched "cus_4" "sub_4" = some ⟨"sub_sched_4"⟩
    ∧ (handlePaymentIntent ⟨"ops@socialbio.me"⟩ [c4User] c4Sched
        "payment_intent.succeeded" c4Intent [c4Record]).store.map
          (fun r => r.subscriptionScheduleId) = [none] := by
  refine ⟨by decide, rfl, by decide⟩

/-- A concrete incoming payment intent for the C6 counterexample, matching no
user and no record. -/
def c6Intent : PaymentIntent :=
  ⟨"pi_6", 2000, "usd", "ghost@x.com", Customer.ref "cus_6", "succeeded"⟩

/-- Claim C6, as stated, fails: a payment-intent event whose intent id matches no
stored record but whose receipt email also matches no user logs no error at all,
because the user lookup short-circuits the handler before reconciliation. -/
theorem c6_counterexample :
    List.find? (fun r => decide (r.latestInvoice.payment_intent.id = c6Intent.id)) ([] : Store)
        = none
    ∧ (handlePaymentIntent ⟨"ops@socialbio.me"⟩ [] (fun _ _ => none)
        "payment_intent.succeeded" c6Intent ([] : Store)).errorLogged = false := by
  exact ⟨rfl, rfl⟩

/-- Claim C6, amended: for a payment-intent event whose receipt email matches a
user and whose intent id matches no stored record by the nested join key, the
reconciliation-miss error is logged, no notification is attempted, nothing in the
collection changes, and the webhook endpoint still answers with the empty-body
success response. -/
theorem c6_no_matching_record_logs_and_succeeds (hc : HookConfig)
    (sysCreds : SystemEmailCredentials) (users : List User)
    (sched : String → String → Option SubscriptionSchedule) (ev : Event) (s : Store)
    (u : User) (sec : String)
    (hready : hc.stripeReady = true)
    (hsec : hc.webhookSecret = some sec)
    (hty : strIncludes ev.type "payment_intent" = true)
    (hu : users.find? (fun x => decide (x.email = ev.intent.receipt_email)) = some u)
    (hnone : s.find? (fun x => decide (x.latestInvoice.payment_intent.id = ev.intent.id))
        = none) :
    hookEventsFromStripe hc sysCreds users sched (SigOutcome.valid ev) s
      = ⟨HookResponse.emptyOk, RouteChoice.paymentIntent, s, [], true, []⟩ := by
  have hexact : s.find?
      (fun x => decide (x.latestInvoice = SubscriptionsResults.bareInvoiceDoc ev.intent.id))
      = none := by
    rw [List.find?_eq_none] at hnone ⊢
    intro x hx hcontra
    apply hnone x hx
    have hxeq : x.latestInvoice = SubscriptionsResults.bareInvoiceDoc ev.intent.id :=
      of_decide_eq_true hcontra
    exact decide_eq_true (by rw [hxeq]; rfl)
  have hh := handlePaymentIntent_reconcile_miss sysCreds users sched ev.type ev.intent s u hu hexact
  simp [hookEventsFromStripe, hready, hsec, hty, hh]

/-- The incoming payment intent of the C6 witness. -/
def c6wIntent : PaymentIntent :=
  ⟨"pi_6w", 2000, "usd", "d@v.com", Customer.ref "cus_6w", "succeeded"⟩

/-- The user of the C6 witness. -/
def c6wUser : User := ⟨"Dana", "d@v.com"⟩

/-- A stored record of the C6 witness whose nested payment-intent id differs
from the incoming one. -/
def c6wRecord : SubscriptionRecord :=
  ⟨"sub_6w", 1720000000, 1690000000, "usd", "price_pro_month", some "month", Customer.ref "cus_6w",
   ⟨⟨"pi_other", none⟩, false⟩, "user_6w", "incomplete", none, none⟩

/-- Concrete instance of the amended C6 theorem. -/
theorem c6_no_matching_record_logs_and_succeeds_witness :
    hookEventsFromStripe ⟨true, some "whsec_6"⟩ ⟨"ops@socialbio.me"⟩ [c6wUser] (fun _ _ => none)
        (SigOutcome.valid ⟨"payment_intent.succeeded", c6wIntent⟩) [c6wRecord]
      = ⟨HookResponse.emptyOk, RouteChoice.paymentIntent, [c6wRecord], [], true, []⟩ :=
  c6_no_matching_record_logs_and_succeeds ⟨true, some "whsec_6"⟩ ⟨"ops@socialbio.me"⟩
    [c6wUser] (fun _ _ => none) ⟨"payment_intent.succeeded", c6wIntent⟩ [c6wRecord]
    c6wUser "whsec_6" rfl rfl (by decide) (by decide) (by decide)

/-- The payment intent of the C7 counterexample event. -/
def c7Intent : PaymentIntent :=
  ⟨"pi_7", 2000, "usd", "e@q.com", Customer.ref "cus_7", "succeeded"⟩

/-- The verified event delivered while the signing secret is missing in the C7
counterexample. -/
def c7Event : Event := ⟨"payment_intent.succeeded", c7Intent⟩

/-- Claim C7, as stated, fails on the missing-secret case: with the signing
secret absent the endpoint throws the internal error out of the request handler
instead of producing any JSON error response. -/
theorem c7_counterexample :
    (hookEventsFromStripe ⟨true, none⟩ ⟨"ops@socialbio.me"⟩ [] (fun _ _ => none)
        (SigOutcome.valid c7Event) []).response = HookResponse.thrown INTERNAL_ERROR
    ∧ ((hookEventsFromStripe ⟨true, none⟩ ⟨"ops@socialbio.me"⟩ [] (fun _ _ => none)
        (SigOutcome.valid c7Event) []).response).isJson = false := by
  exact ⟨rfl, rfl⟩

/-- Claim C7, amended: with the provider client ready, a missing signing secret
makes the endpoint throw the internal error with no handler invoked and no
record touched; a signature verification failure is answered with the JSON
error body of status 500, again with no handler invoked and no record touched;
and every successful dispatch is answered with the empty-body success
response. -/
theorem c7_response_contract (hc : HookConfig) (sysCreds : SystemEmailCredentials)
    (users : List User) (sched : String → String → Option SubscriptionSchedule) (s : Store) :
    (∀ sig, hc.stripeReady = true → hc.webhookSecret = none →
        hookEventsFromStripe hc sysCreds users sched sig s
          = ⟨HookResponse.thrown INTERNAL_ERROR, RouteChoice.noHandler, s, [], false, []⟩)
    ∧ (∀ sec m, hc.stripeReady = true → hc.webhookSecret = some sec →
        hookEventsFromStripe hc sysCreds users sched (SigOutcome.invalid m) s
          = ⟨HookResponse.jsonError 500 "Webhook Error", RouteChoice.noHandler, s, [], false, []⟩)
    ∧ (∀ sec ev, hc.stripeReady = true → hc.webhookSecret = some sec →
        (hookEventsFromStripe hc sysCreds users sched (SigOutcome.valid ev) s).response
          = HookResponse.emptyOk) := by
  refine ⟨fun sig h1 h2 => ?_, fun sec m h1 h2 => ?_, fun sec ev h1 h2 => ?_⟩
  · simp [hookEventsFromStripe, h1, h2]
  · simp [hookEventsFromStripe, h1, h2]
  · by_cases hpi : strIncludes ev.type "payment_intent"
      <;> by_cases hin : strIncludes ev.type "invoice"
      <;> simp [hookEventsFromStripe, h1, h2, hpi, hin]

/-- Concrete instance of the amended C7 theorem on an invalid signature. -/
theorem c7_response_contract_witness :
    hookEventsFromStripe ⟨true, some "whsec_7"⟩ ⟨"ops@socialbio.me"⟩ [] (fun _ _ => none)
        (SigOutcome.invalid "bad signature") []
      = ⟨HookResponse.jsonError 500 "Webhook Error", RouteChoice.noHandler, [], [], false, []⟩ :=
  (c7_response_contract ⟨true, some "whsec_7"⟩ ⟨"ops@socialbio.me"⟩ [] (fun _ _ => none) []).2.1
    "whsec_7" "bad signature" rfl rfl

/-- Claim C8: when the local record update of cancelSubscriptionOnStripe finds
no record, the whole call returns null, the collection stays as it was and no
remote provider cancel is issued; conversely a remote cancel is only ever issued
once the local update has succeeded, returning the locally canceled record. -/
theorem c8_local_cancel_gates_remote (ready : Bool) (subscriptionId : String) (s : Store) :
    (s.find? (fun r => decide (r.subscriptionId = subscriptionId)) = none →
      StripeSvc.cancelSubscriptionOnStripe ready subscriptionId s = ⟨none, s, []⟩)
    ∧ ((StripeSvc.cancelSubscriptionOnStripe ready subscriptionId s).remoteCancels ≠ [] →
      ∃ r, s.find? (fun x => decide (x.subscriptionId = subscriptionId)) = some r
        ∧ (StripeSvc.cancelSubscriptionOnStripe ready subscriptionId s).result
            = some (SubscriptionsResults.cancelPatch r)) := by
  cases hready : ready
  · refine ⟨fun _ => ?_, fun h => ?_⟩
    · simp [StripeSvc.cancelSubscriptionOnStripe]
    · simp [StripeSvc.cancelSubscriptionOnStripe] at h
  · cases hfind : s.find? (fun x => decide (x.subscriptionId = subscriptionId)) with
    | none =>
      refine ⟨fun _ => ?_, fun h => ?_⟩
      · simp [StripeSvc.cancelSubscriptionOnStripe, findOneAndUpdateNew, hfind]
      · simp [StripeSvc.cancelSubscriptionOnStripe, findOneAndUpdateNew, hfind] at h
    | some r =>
      refine ⟨fun h => ?_, fun _ => ⟨r, rfl, ?_⟩⟩
      · cases h
      · simp [StripeSvc.cancelSubscriptionOnStripe, findOneAndUpdateNew, hfind]

/-- Concrete instance of the C8 theorem: on an empty collection the cancel
returns null and issues no remote cancel. -/
theorem c8_local_cancel_gates_remote_witness :
    StripeSvc.cancelSubscriptionOnStripe true "sub_8" [] = ⟨none, [], []⟩ :=
  (c8_local_cancel_gates_remote true "sub_8" []).1 (by decide)

/-- Claim C9: cancelling a subscription id that has a stored record returns that
record with status canceled and stores it canceled; cancelling again returns the
same record and leaves the collection unchanged — a no-op in effect, not an
error. -/
theorem c9_cancel_idempotent (subscriptionId : String) (s : Store) (r : SubscriptionRecord)
    (h : s.find? (fun x => decide (x.subscriptionId = subscriptionId)) = some r) :
    (SubscriptionsResults.cancelSubscriptionResult subscriptionId s).1
        = some (SubscriptionsResults.cancelPatch r)
    ∧ (SubscriptionsResults.cancelPatch r).status = "canceled"
    ∧ ((SubscriptionsResults.cancelSubscriptionResult subscriptionId s).2).find?
        (fun x => decide (x.subscriptionId = subscriptionId))
        = some (SubscriptionsResults.cancelPatch r)
    ∧ SubscriptionsResults.cancelSubscriptionResult subscriptionId
        ((SubscriptionsResults.cancelSubscriptionResult subscriptionId s).2)
      = ((SubscriptionsResults.cancelSubscriptionResult subscriptionId s).1,
         (SubscriptionsResults.cancelSubscriptionResult subscriptionId s).2) := by
  have h1 := findOneAndUpdateNew_of_find?_eq_some
    (fun x => decide (x.subscriptionId = subscriptionId)) SubscriptionsResults.cancelPatch s r h
  have h2 : (updateFirst (fun x => decide (x.subscriptionId = subscriptionId))
      SubscriptionsResults.cancelPatch s).find?
        (fun x => decide (x.subscriptionId = subscriptionId))
      = some (SubscriptionsResults.cancelPatch r) :=
    find?_updateFirst_self (fun x => decide (x.subscriptionId = subscriptionId))
      SubscriptionsResults.cancelPatch (fun x => rfl) s r h
  have h3 := findOneAndUpdateNew_of_find?_eq_some
    (fun x => decide (x.subscriptionId = subscriptionId)) SubscriptionsResults.cancelPatch _ _ h2
  refine ⟨?_, rfl, ?_, ?_⟩
  · rw [SubscriptionsResults.cancelSubscriptionResult, h1]
  · simp only [SubscriptionsResults.cancelSubscriptionResult, h1]
    exact h2
  · simp only [SubscriptionsResults.cancelSubscriptionResult, h1]
    rw [h3]
    rw [updateFirst_idem (fun x => decide (x.subscriptionId = subscriptionId))
      SubscriptionsResults.cancelPatch (fun x => rfl) (fun x => rfl) s]
    rfl

/-- The stored record of the C9 witness. -/
def c9Record : SubscriptionRecord :=
  ⟨"sub_9", 1720000000, 1690000000, "usd", "price_pro_month", some "month", Customer.ref "cus_9",
   ⟨⟨"pi_9", none⟩, false⟩, "user_9", "active", none, none⟩

/-- Concrete instance of the C9 theorem. -/
theorem c9_cancel_idempotent_witness :
    (SubscriptionsResults.cancelSubscriptionResult "sub_9" [c9Record]).1
        = some (SubscriptionsResults.cancelPatch c9Record)
    ∧ (SubscriptionsResults.cancelPatch c9Record).status = "canceled"
    ∧ ((SubscriptionsResults.cancelSubscriptionResult "sub_9" [c9Record]).2).find?
        (fun x => decide (x.subscriptionId = "sub_9"))
        = some (SubscriptionsResults.cancelPatch c9Record)
    ∧ SubscriptionsResults.cancelSubscriptionResult "sub_9"
        ((SubscriptionsResults.cancelSubscriptionResult "sub_9" [c9Record]).2)
      = ((SubscriptionsResults.cancelSubscriptionResult "sub_9" [c9Record]).1,
         (SubscriptionsResults.cancelSubscriptionResult "sub_9" [c9Record]).2) :=
  c9_cancel_idempotent "sub_9" [c9Record] c9Record (by decide)

/-- Claim C10: the saveSubscriptionResult and updateSubscriptionResult
operations declared in stripe.service.ts and the identically named operations of
the subscriptions-results service are extensionally equal: on every input and
every collection they produce the same store operation and the same returned
value. -/
theorem c10_duplicate_service_ops_equal :
    (∀ sub s, StripeSvc.saveSubscriptionResult sub s
        = SubscriptionsResults.saveSubscriptionResult sub s)
    ∧ (∀ sub s, StripeSvc.updateSubscriptionResult sub s
        = SubscriptionsResults.updateSubscriptionResult sub s) :=
  ⟨fun _ _ => rfl, fun _ _ => rfl⟩

end SocialbioPayments
